import Mathlib

/-!
Shallow embedding of the py3dep repository (src/py3dep/utils.py and
src/py3dep/cli.py) and proofs about its claims.

External collaborators (the pygeoogc ArcGIS REST client, pygeoutils,
pandas/geopandas frames, xarray arrays, numpy math, pyflwdir, the
filesystem) are modelled abstractly: opaque type parameters and opaque
function parameters stand for their values and behaviour, while the code
of this repository is translated line by line.  Cell values of rasters
and tables are an opaque type `V`; a raster cell is `Option V` with
`none` standing for the IEEE NaN (so `tan(deg2rad(NaN)) = NaN` is the
`Option.map` law, and `x != NaN` is always true).  Filesystem writes are
recorded as an explicit effect list, and calls delegated to the external
REST client are recorded as an explicit call trace.
-/

set_option autoImplicit false

namespace Py3dep

/-- Exceptions of py3dep (module py3dep.exceptions): `DependencyError`,
`MissingColumns` (carrying the list of missing column names) and
`MissingCRS`. -/
inductive Py3depError where
  | dependencyError
  | missingColumns (missing : List String)
  | missingCRS
deriving DecidableEq, Repr

/-- Lookup in a Python-dict model (an association list of string keys in
insertion order): the value of the first matching key. -/
def alookup {β : Type} (k : String) : List (String × β) → Option β
  | [] => none
  | p :: rest => if p.1 = k then some p.2 else alookup k rest

/-! ### The `RESTful` wrapper (src/py3dep/utils.py, lines 123-202)

The external `pygeoogc.ArcGISRESTful` client is modelled as a record of
its query methods together with its own inner `client` attribute (the
code reads `self.client.client.crs`).  Its constructor is an opaque
parameter `mk`.  The wrapper methods additionally return the trace of
the calls they delegate to the client. -/

/-- Inner client object of the external `ArcGISRESTful` instance; the
code only reads its `crs` attribute. -/
structure InnerClient (CRS : Type) where
  crs : CRS

/-- Abstract model of an instantiated external `pygeoogc.ArcGISRESTful`
client: its query methods as opaque functions, and its inner client. -/
structure ArcGISRESTful (Geom CRS OID JSON : Type) where
  oids_bygeom : Geom → CRS → List OID
  oids_bysql : String → List OID
  get_features : List OID → JSON
  client : InnerClient CRS

/-- One call delegated to the external ArcGIS REST client. -/
inductive ClientCall (Geom CRS OID : Type) where
  | oids_bygeom (geom : Geom) (geo_crs : CRS)
  | oids_bysql (sql_clause : String)
  | get_features (oids : List OID)
deriving DecidableEq

/-- The `RESTful` class of utils.py: its only instance attribute is the
external client stored by `__init__`. -/
structure RESTful (Geom CRS OID JSON : Type) where
  client : ArcGISRESTful Geom CRS OID JSON

/-- Model of `RESTful.__init__` (utils.py lines 142-156): it constructs
the external client, passing `base_url`, `layer`, `outformat`,
`outfields` and `crs` through, and stores it.  The external constructor
is the opaque parameter `mk` taking the arguments in the order of the
call site `ArcGISRESTful(base_url, layer, outformat=..., outfields=...,
crs=...)`. -/
def RESTful.init {Geom CRS OID JSON OutFields : Type}
    (mk : String → Int → String → OutFields → CRS → ArcGISRESTful Geom CRS OID JSON)
    (base_url : String) (layer : Int) (outfields : OutFields) (crs : CRS)
    (outformat : String) : RESTful Geom CRS OID JSON :=
  ⟨mk base_url layer outformat outfields crs⟩

/-- Model of `RESTful.bygeom` (utils.py lines 158-178):
`oids = self.client.oids_bygeom(geom, geo_crs=geo_crs)` followed by
`return geoutils.json2geodf(self.client.get_features(oids),
self.client.client.crs)`.  The external `pygeoutils.json2geodf` is the
opaque parameter `json2geodf`.  The second component is the trace of the
calls delegated to the external client, in order. -/
def RESTful.bygeom {Geom CRS OID JSON GeoDF : Type}
    (json2geodf : JSON → CRS → GeoDF) (self : RESTful Geom CRS OID JSON)
    (geom : Geom) (geo_crs : CRS) :
    GeoDF × List (ClientCall Geom CRS OID) :=
  let oids := self.client.oids_bygeom geom geo_crs
  let resp := self.client.get_features oids
  (json2geodf resp self.client.client.crs,
   [ClientCall.oids_bygeom geom geo_crs, ClientCall.get_features oids])

/-- Model of `RESTful.bysql` (utils.py lines 180-202):
`oids = self.client.oids_bysql(sql_clause)` followed by
`return geoutils.json2geodf(self.client.get_features(oids),
self.client.client.crs)`, with the delegated-call trace. -/
def RESTful.bysql {Geom CRS OID JSON GeoDF : Type}
    (json2geodf : JSON → CRS → GeoDF) (self : RESTful Geom CRS OID JSON)
    (sql_clause : String) :
    GeoDF × List (ClientCall Geom CRS OID) :=
  let oids := self.client.oids_bysql sql_clause
  let resp := self.client.get_features oids
  (json2geodf resp self.client.client.crs,
   [ClientCall.oids_bysql sql_clause, ClientCall.get_features oids])

/-- Model of `get_item_plural` (cli.py lines 27-29):
`return "item" if n == 1 else "items"`.  Python integers are modelled
by `Int`. -/
def get_item_plural (n : Int) : String :=
  if n = 1 then "item" else "items"

/-! ### Raster model: xarray DataArray with attributes
(for `deg2mpm`, `rename_layers`, `fill_depressions` in utils.py)

Attribute values are strings, scalars or tuples; scalars and tuple
elements are `Option V` with `none` standing for NaN. -/

/-- Value of one attribute in an xarray `attrs` dictionary.  Attributes
that carry nodata information are numeric (`num`) or tuples (`tup`) in
this model. -/
inductive AttrVal (V : Type) where
  | str (s : String)
  | num (x : Option V)
  | tup (xs : List (Option V))
deriving DecidableEq

/-- Model of an `xarray.DataArray`: a name, the flattened cell values
(`none` is NaN), the `attrs` dictionary as an association list in
insertion order, and the numpy dtype tag.  Since cell values are opaque,
`astype` changes only the dtype tag. -/
structure DataArray (V : Type) where
  name : String
  values : List (Option V)
  attrs : List (String × AttrVal V)
  dtype : String
deriving DecidableEq

/-- Model of `dem.astype(dt)` on the opaque cell values: retag the
dtype. -/
def DataArray.astype {V : Type} (da : DataArray V) (dt : String) : DataArray V :=
  { da with dtype := dt }

/-- Python-dict assignment `attrs[key] = v`: replace in place when the
key exists, append otherwise. -/
def setAttr {V : Type} (attrs : List (String × AttrVal V)) (key : String)
    (v : AttrVal V) : List (String × AttrVal V) :=
  if (alookup key attrs).isSome then
    attrs.map (fun p => if p.1 = key then (key, v) else p)
  else attrs ++ [(key, v)]

/-- Numeric content of an attribute used directly as a nodata value
(`slope.attrs["_FillValue"]`); non-numeric nodata attributes are outside
the model. -/
def AttrVal.asNum {V : Type} : AttrVal V → Option V
  | .num x => x
  | _ => none

/-- Nodata value extracted from a `nodatavals` attribute:
`_nodata[0] if isinstance(_nodata, Sequence) else _nodata`
(utils.py line 77).  An empty tuple or a non-numeric attribute is
outside the model. -/
def AttrVal.firstOfSeq {V : Type} : AttrVal V → Option V
  | .tup xs => xs.headD none
  | .num x => x
  | .str _ => none

/-- Nodata selection of `deg2mpm` (utils.py lines 73-79): the
`_FillValue` attribute if present, else the first entry of `nodatavals`
if present, else NaN. -/
def nodataOf {V : Type} (attrs : List (String × AttrVal V)) : Option V :=
  match alookup "_FillValue" attrs with
  | some a => a.asNum
  | none =>
    match alookup "nodatavals" attrs with
    | some a => a.firstOfSeq
    | none => none

/-- One cell of `slope.where(slope != nodata, drop=False)` (utils.py
line 80): a NaN cell stays NaN (in IEEE, `NaN != nodata` is true, and
the cell is already NaN); a cell equal to a non-NaN nodata becomes NaN;
every other cell is kept.  When nodata is NaN the comparison
`x != NaN` is elementwise true, so every cell is kept. -/
def maskCell {V : Type} [DecidableEq V] (nodata : Option V) : Option V → Option V
  | none => none
  | some v =>
    match nodata with
    | some nd => if v = nd then none else some v
    | none => some v

/-- Model of `deg2mpm` (utils.py lines 58-96).  The numpy map
`lambda x: np.tan(np.deg2rad(x))` is the opaque parameter `tanDeg`
(applied through `Option.map`, since `tan(deg2rad(NaN)) = NaN`).
`xr.set_options(keep_attrs=True)` makes `where` and `apply_ufunc` keep
the input attributes, after which the code sets `nodatavals`, resets
`_FillValue` when present, renames to `slope` and sets `units`. -/
def deg2mpm {V : Type} [DecidableEq V] (tanDeg : V → V) (slope : DataArray V) :
    DataArray V :=
  let nodata := nodataOf slope.attrs
  let vals1 := slope.values.map (maskCell nodata)
  let vals2 := vals1.map (Option.map tanDeg)
  let attrs1 := setAttr slope.attrs "nodatavals" (AttrVal.tup [none])
  let attrs2 :=
    if (alookup "_FillValue" attrs1).isSome then
      setAttr attrs1 "_FillValue" (AttrVal.num none)
    else attrs1
  let attrs3 := setAttr attrs2 "units" (AttrVal.str "m/m")
  { name := "slope", values := vals2, attrs := attrs3, dtype := slope.dtype }

/-- Model of Python `str.split` with a one-character separator, over the
character list; the result is never the empty list of groups. -/
def splitOnChar (sep : Char) : List Char → List (List Char)
  | [] => [[]]
  | c :: rest =>
    let r := splitOnChar sep rest
    if c = sep then [] :: r
    else
      match r with
      | [] => [[c]]
      | g :: gs => (c :: g) :: gs

/-- Model of Python `str.lower()`. -/
def pyLower (s : String) : String := ⟨s.data.map Char.toLower⟩

/-- Model of Python `str.replace(a, b)` for one-character patterns. -/
def pyReplaceChar (s : String) (a b : Char) : String :=
  ⟨s.data.map (fun c => if c = a then b else c)⟩

/-- Model of Python `s.split(sep)[-1]` for a one-character separator:
the text after the last occurrence of `sep` (all of `s` when `sep` does
not occur). -/
def pySplitLast (sep : Char) (s : String) : String :=
  ⟨(splitOnChar sep s.data).getLastD s.data⟩

/-- Renaming rule of `rename_layers` (utils.py line 113):
`lyr.split(":")[-1].replace(" ", "_").lower()`. -/
def layerSlug (lyr : String) : String :=
  pyLower (pyReplaceChar (pySplitLast ':' lyr) ' ' '_')

/-- The rename dictionary of `rename_layers` (utils.py lines 113-114)
as a lookup: built from `valid_layers` with `layerSlug`, then updated
with `{"3DEPElevation:None": "elevation"}` (the update wins even when
that key is already present); a key outside the dictionary is a Python
`KeyError`, modelled as `none`. -/
def renameOf (valid_layers : List String) (n : String) : Option String :=
  if n = "3DEPElevation:None" then some "elevation"
  else if n ∈ valid_layers then some (layerSlug n) else none

/-- Model of `rename_layers` on an `xarray.Dataset`
(utils.py line 119): `ds.rename({n: rename[str(n)] for n in ds})`.
A dataset is its list of named data variables; any variable whose name
is missing from the dictionary raises, modelled as `none`. -/
def rename_layers {V : Type} (ds : List (String × List (Option V)))
    (valid_layers : List String) : Option (List (String × List (Option V))) :=
  match ds with
  | [] => some []
  | p :: rest =>
    match renameOf valid_layers p.1, rename_layers rest valid_layers with
    | some n2, some rest2 => some ((n2, p.2) :: rest2)
    | _, _ => none

/-- Model of `rename_layers` on an `xarray.DataArray`
(utils.py line 117): `ds.name = rename[str(ds.name)]`. -/
def rename_layers_da {V : Type} (da : DataArray V) (valid_layers : List String) :
    Option (DataArray V) :=
  (renameOf valid_layers da.name).map (fun n2 => { da with name := n2 })

/-- The `outlets` option of `fill_depressions`. -/
inductive Outlets where
  | min
  | edge
deriving DecidableEq

/-- Model of `fill_depressions` (utils.py lines 24-55).  Whether
`import pyflwdir` succeeds is the flag `pyflwdirAvail`; on failure the
code raises `DependencyError`.  The external
`pyflwdir.dem.fill_depressions` is the opaque parameter `extFill`,
applied to the cast DEM's values, the `outlets` option and NaN as
nodata; the code then copies the data into the array, restores the
attributes and writes NaN as the nodata value (rioxarray's
`write_nodata` sets the `_FillValue` attribute). -/
def fill_depressions {V : Type}
    (pyflwdirAvail : Bool)
    (extFill : List (Option V) → Outlets → Option V → List (Option V))
    (dem : DataArray V) (outlets : Outlets) :
    Except Py3depError (DataArray V) :=
  if pyflwdirAvail then
    let dem1 := dem.astype "f8"
    let attrs := dem1.attrs
    let filled := extFill dem1.values outlets none
    let dem2 := { dem1 with values := filled }
    let dem3 := { dem2 with attrs := attrs }
    let dem4 := { dem3 with attrs := setAttr dem3.attrs "_FillValue" (AttrVal.num none) }
    Except.ok dem4
  else
    Except.error Py3depError.dependencyError

/-! ### Table model and the CLI (src/py3dep/cli.py)

A pandas/geopandas frame is a list of named columns; each column has a
dtype tag and its values.  Cell values (coordinates, identifiers,
resolutions, geometries) are the opaque type `V`.  The external
functions `pd.read_csv`, `gpd.read_file`, `py3dep.elevation_bycoords`,
`py3dep.get_map` and the constant `DEF_CRS` are opaque parameters.
Filesystem operations are recorded as an effect list. -/

/-- One column of a pandas frame: its dtype tag and its values. -/
structure Column (V : Type) where
  dtype : String
  values : List V
deriving DecidableEq

/-- Model of a pandas `DataFrame` (or the tabular part of a geopandas
`GeoDataFrame`): named columns in order. -/
structure DataFrame (V : Type) where
  cols : List (String × Column V)
deriving DecidableEq

/-- Column names of a frame, in order. -/
def DataFrame.colNames {V : Type} (df : DataFrame V) : List String :=
  df.cols.map Prod.fst

/-- Model of `df.itertuples(index=False, name=None)`: the rows of the
frame, each row listing the cells in column order. -/
def DataFrame.itertuples {V : Type} (df : DataFrame V) : List (List V) :=
  (df.cols.map (fun p => p.2.values)).transpose

/-- Model of pandas column assignment `df[c] = vals`: replace the
column in place when it exists, append it otherwise; the new column's
dtype is inferred by pandas, an opaque tag here. -/
def DataFrame.setCol {V : Type} (df : DataFrame V) (c : String) (vals : List V) :
    DataFrame V :=
  let col : Column V := ⟨"inferred", vals⟩
  if (alookup c df.cols).isSome then
    ⟨df.cols.map (fun p => if p.1 = c then (c, col) else p)⟩
  else ⟨df.cols ++ [(c, col)]⟩

/-- Model of `df.astype(dt)` on opaque cell values: retag every
column's dtype. -/
def DataFrame.astype {V : Type} (df : DataFrame V) (dt : String) : DataFrame V :=
  ⟨df.cols.map (fun p => (p.1, { p.2 with dtype := dt }))⟩

/-- Model of geopandas `read_file` output: a frame together with its
optional CRS. -/
structure GeoDataFrame (V : Type) where
  crs : Option String
  df : DataFrame V

/-- Model of `pathlib.Path(dir, name)`: join with a separator. -/
def pathJoin (dir entry : String) : String := dir ++ "/" ++ entry

/-- Model of `pathlib.Path(p).stem`: the final path component without
its last extension. -/
def pathStem (p : String) : String :=
  let base := (splitOnChar '/' p.data).getLastD p.data
  match splitOnChar '.' base with
  | [] => ⟨base⟩
  | [_] => ⟨base⟩
  | parts => ⟨List.intercalate ['.'] parts.dropLast⟩

/-- One filesystem operation performed by the CLI: creating the save
directory, writing a CSV table, or writing a NetCDF file (whose content
has the opaque type `ND`, the output type of `py3dep.get_map`). -/
inductive FsEffect (V ND : Type) where
  | mkdir (path : String)
  | writeCsv (path : String) (df : DataFrame V)
  | writeNetcdf (path : String) (data : ND)

/-- The target path of a filesystem effect. -/
def effPath {V ND : Type} : FsEffect V ND → String
  | .mkdir p => p
  | .writeCsv p _ => p
  | .writeNetcdf p _ => p

/-- Model of `get_target_df` (cli.py lines 14-24):
`missing = [c for c in req_cols if c not in tdf]`; raise
`MissingColumns(missing)` when nonempty, else return `tdf[req_cols]`
(the frame restricted to `req_cols`, in that order). -/
def get_target_df {V : Type} (tdf : DataFrame V) (req_cols : List String) :
    Except Py3depError (DataFrame V) :=
  let missing := req_cols.filter (fun c => (alookup c tdf.cols).isNone)
  if missing.length > 0 then Except.error (Py3depError.missingColumns missing)
  else Except.ok ⟨req_cols.map (fun c => (c, (alookup c tdf.cols).getD ⟨"", []⟩))⟩

/-- Model of the `coords` command (cli.py lines 62-87): make the save
directory, read the CSV and keep the `x`, `y` columns, compute the
elevations of the coordinate rows with the external
`py3dep.elevation_bycoords`, store them in an `elevation` column, cast
the frame to float64 and write it to
`save_dir/(stem of fpath)_elevation.csv`.  Returns the filesystem
effects in order and the outcome. -/
def coords {V ND : Type}
    (read_csv : String → DataFrame V)
    (elevation_bycoords : List (List V) → String → String → List V)
    (fpath : String) (crs : String) (query_source : String) (save_dir : String) :
    List (FsEffect V ND) × Except Py3depError Unit :=
  let effs := [FsEffect.mkdir save_dir]
  match get_target_df (read_csv fpath) ["x", "y"] with
  | Except.error e => (effs, Except.error e)
  | Except.ok elev =>
    let coords_list := elev.itertuples
    let elev2 := elev.setCol "elevation" (elevation_bycoords coords_list crs query_source)
    let out := elev2.astype "f8"
    (effs ++ [FsEffect.writeCsv (pathJoin save_dir (pathStem fpath ++ "_elevation.csv")) out],
     Except.ok ())

/-- Model of the `geometry` command (cli.py lines 94-135): make the save
directory, read the geospatial file, raise `MissingCRS` when it has no
CRS, keep the `id`, `res`, `geometry` columns, and for each feature row
`(i, r, g)` call the external `py3dep.get_map(layer, g, r, geo_crs=crs,
crs=DEF_CRS)` and write the result to `save_dir/{i}.nc` (Python
stringifies the identifier; that is the opaque `pyStrOf`).  Returns the
filesystem effects in order and the outcome. -/
def geometry {V ND : Type}
    (read_file : String → GeoDataFrame V)
    (get_map : String → V → V → String → String → ND)
    (DEF_CRS : String) (pyStrOf : V → String)
    (fpath : String) (layer : String) (save_dir : String) :
    List (FsEffect V ND) × Except Py3depError Unit :=
  let effs := [FsEffect.mkdir save_dir]
  let target_df := read_file fpath
  match target_df.crs with
  | none => (effs, Except.error Py3depError.missingCRS)
  | some crs =>
    match get_target_df target_df.df ["id", "res", "geometry"] with
    | Except.error e => (effs, Except.error e)
    | Except.ok tdf =>
      let ids := ((alookup "id" tdf.cols).getD ⟨"", []⟩).values
      let ress := ((alookup "res" tdf.cols).getD ⟨"", []⟩).values
      let geoms := ((alookup "geometry" tdf.cols).getD ⟨"", []⟩).values
      let writes := (ids.zip (ress.zip geoms)).map (fun t =>
        FsEffect.writeNetcdf (pathJoin save_dir (pyStrOf t.1 ++ ".nc"))
          (get_map layer t.2.2 t.2.1 crs DEF_CRS))
      (effs ++ writes, Except.ok ())

/-! ### Concrete inputs used by witnesses and counterexamples -/

/-- A concrete slope raster (cells in degrees, `Int`-valued model) whose
`_FillValue` attribute is the non-NaN nodata value `5`. -/
def exSlope : DataArray Int :=
  { name := "slope_deg"
    values := [some 5, some 3, none]
    attrs := [("_FillValue", AttrVal.num (some 5)), ("crs", AttrVal.str "EPSG:4326")]
    dtype := "f4" }

/-- A concrete dataset with two layers for the `rename_layers`
witness. -/
def exDataset : List (String × List (Option Int)) :=
  [("3DEPElevation:None", [some 10]), ("Slope Degrees", [some 7])]

/-- The valid layer names for the `rename_layers` witness. -/
def exValidLayers : List String := ["3DEPElevation:None", "Slope Degrees"]

/-- A concrete single-layer array named `3DEPElevation:None` for the
`rename_layers` witness. -/
def exDa : DataArray Int :=
  { name := "3DEPElevation:None"
    values := [some 42]
    attrs := []
    dtype := "f4" }

/-- A concrete DEM for the `fill_depressions` witness. -/
def exDem : DataArray Int :=
  { name := "elevation"
    values := [some 3, some 1]
    attrs := [("units", AttrVal.str "meters")]
    dtype := "f4" }

/-- A concrete external depression-filling function for the
`fill_depressions` witness: shifts every finite cell up by one. -/
def exExtFill (vs : List (Option Int)) (o : Outlets) (nd : Option Int) :
    List (Option Int) :=
  match o, nd with
  | _, _ => vs.map (Option.map (fun v => v + 1))

/-- A concrete coordinates table (columns `x` and `y`) for the CLI
witness, standing for the parsed contents of a CSV file. -/
def exCoordsDf : DataFrame Int :=
  ⟨[("x", ⟨"i8", [1, 2]⟩), ("y", ⟨"i8", [3, 4]⟩)]⟩

/-- A concrete geospatial table with `id`, `res` and `geometry` columns
and a CRS, for the CLI witness. -/
def exGeoDf : GeoDataFrame Int :=
  { crs := some "EPSG:5070", df := ⟨[("id", ⟨"obj", [11]⟩), ("res", ⟨"i8", [30]⟩), ("geometry", ⟨"obj", [99]⟩)]⟩ }

/-- A concrete geospatial table without a CRS, for the `MissingCRS`
witness. -/
def exGeoDfNoCrs : GeoDataFrame Int :=
  { crs := none, df := ⟨[("id", ⟨"obj", [11]⟩)]⟩ }

/-- A concrete CSV reader for the CLI witness. -/
def exReadCsv : String → DataFrame Int := fun _ => exCoordsDf

/-- A concrete external elevation service for the CLI witness. -/
def exElevBycoords : List (List Int) → String → String → List Int :=
  fun _ _ _ => [100, 200]

/-- A concrete geospatial reader for the CLI witness. -/
def exReadFile : String → GeoDataFrame Int := fun _ => exGeoDf

/-- A concrete geospatial reader without CRS for the `MissingCRS`
witness. -/
def exReadFileNoCrs : String → GeoDataFrame Int := fun _ => exGeoDfNoCrs

/-- A concrete external map-fetching function for the CLI witness. -/
def exGetMap : String → Int → Int → String → String → Int :=
  fun _ g r _ _ => g + r

/-- A concrete Python `str()` model for the CLI witness. -/
def exPyStr : Int → String := fun _ => "11"

/-! ### Helper lemmas on attribute/column lookup -/

/-- Lookup in a concatenation tries the left list first. -/
theorem alookup_append {β : Type} (l1 l2 : List (String × β)) (k : String) :
    alookup k (l1 ++ l2) = (alookup k l1).orElse fun _ => alookup k l2 := by
  induction l1 with
  | nil => simp [alookup]
  | cons p rest ih =>
    by_cases h : p.1 = k
    · simp [alookup, h]
    · simp [alookup, h, ih]

/-- Lookup of the replaced key in the in-place update
`l.map (fun p => if p.1 = key then (key, v) else p)`. -/
theorem alookup_replaceMap_self {β : Type} (l : List (String × β)) (key : String)
    (v : β) :
    alookup key (l.map (fun p => if p.1 = key then (key, v) else p)) =
      if (alookup key l).isSome then some v else none := by
  induction l with
  | nil => simp [alookup]
  | cons p rest ih =>
    by_cases h : p.1 = key
    · simp [alookup, h]
    · simp [alookup, h, ih]

/-- Lookup of a different key is unchanged by the in-place update. -/
theorem alookup_replaceMap_ne {β : Type} (l : List (String × β)) (key k : String)
    (v : β) (hk : k ≠ key) :
    alookup k (l.map (fun p => if p.1 = key then (key, v) else p)) =
      alookup k l := by
  induction l with
  | nil => simp [alookup]
  | cons p rest ih =>
    by_cases h : p.1 = key
    · have h2 : key ≠ k := fun hc => hk hc.symm
      have h3 : ¬p.1 = k := by
        rw [h]
        exact h2
      simp [alookup, h, h2, h3, ih]
    · simp [alookup, h, ih]

/-- Lookup of the written key after `setAttr`. -/
theorem alookup_setAttr_self {V : Type} (l : List (String × AttrVal V))
    (key : String) (v : AttrVal V) :
    alookup key (setAttr l key v) = some v := by
  unfold setAttr
  by_cases h : (alookup key l).isSome
  · simp [h, alookup_replaceMap_self]
  · have h2 : alookup key l = none := Option.not_isSome_iff_eq_none.mp h
    simp [h, alookup_append, h2, alookup]

/-- Lookup of a different key is unchanged by `setAttr`. -/
theorem alookup_setAttr_ne {V : Type} (l : List (String × AttrVal V))
    (key k : String) (v : AttrVal V) (hk : k ≠ key) :
    alookup k (setAttr l key v) = alookup k l := by
  unfold setAttr
  by_cases h : (alookup key l).isSome
  · simp [h, alookup_replaceMap_ne l key k v hk]
  · have h2 : ¬key = k := fun hc => hk hc.symm
    simp [h, alookup_append, alookup, h2]

/-- Lookup is `none` exactly when the key names no entry. -/
theorem alookup_eq_none_iff {β : Type} (l : List (String × β)) (k : String) :
    alookup k l = none ↔ k ∉ l.map Prod.fst := by
  induction l with
  | nil => simp [alookup]
  | cons p rest ih =>
    by_cases h : p.1 = k
    · simp [alookup, h]
    · have h2 : ¬k = p.1 := fun hc => h hc.symm
      simp [alookup, h, h2, ih]

/-! ### Theorems for claims C1, C2, C3 and C10 -/

/-- C1: for every geometry `geom` and CRS `geo_crs`, `RESTful.bygeom`
first obtains the object IDs by calling the client's `oids_bygeom` with
`geom` and `geo_crs`, then fetches the features for exactly those object
IDs via the client's `get_features`, and returns the JSON response
converted by `json2geodf` with the client's CRS — and nothing else: the
whole call is that value together with that two-call trace. -/
theorem bygeom_spec {Geom CRS OID JSON GeoDF : Type}
    (json2geodf : JSON → CRS → GeoDF) (r : RESTful Geom CRS OID JSON)
    (geom : Geom) (geo_crs : CRS) :
    RESTful.bygeom json2geodf r geom geo_crs =
      (json2geodf (r.client.get_features (r.client.oids_bygeom geom geo_crs))
         r.client.client.crs,
       [ClientCall.oids_bygeom geom geo_crs,
        ClientCall.get_features (r.client.oids_bygeom geom geo_crs)]) := rfl

/-- C2: for every SQL WHERE clause, `RESTful.bysql` first obtains the
object IDs by calling the client's `oids_bysql`, then fetches the
features for exactly those object IDs via the client's `get_features`,
and returns the JSON response converted by `json2geodf` with the
client's CRS, delegating exactly those two calls. -/
theorem bysql_spec {Geom CRS OID JSON GeoDF : Type}
    (json2geodf : JSON → CRS → GeoDF) (r : RESTful Geom CRS OID JSON)
    (sql_clause : String) :
    RESTful.bysql json2geodf r sql_clause =
      (json2geodf (r.client.get_features (r.client.oids_bysql sql_clause))
         r.client.client.crs,
       [ClientCall.oids_bysql sql_clause,
        ClientCall.get_features (r.client.oids_bysql sql_clause)]) := rfl

/-- C3: the `RESTful` constructor only hands the caller's parameters
(`base_url`, `layer`, `outformat`, `outfields`, `crs`) to the external
`ArcGISRESTful` constructor and stores the resulting client as its sole
state (every `RESTful` value is exactly its `client` field); `bygeom`
and `bysql` delegate exactly two client calls each and only reshape the
response through `json2geodf`. -/
theorem restful_delegation_spec {Geom CRS OID JSON GeoDF OutFields : Type}
    (mk : String → Int → String → OutFields → CRS → ArcGISRESTful Geom CRS OID JSON)
    (json2geodf : JSON → CRS → GeoDF)
    (base_url : String) (layer : Int) (outfields : OutFields) (crs : CRS)
    (outformat : String) :
    (RESTful.init mk base_url layer outfields crs outformat).client =
        mk base_url layer outformat outfields crs
    ∧ (∀ r : RESTful Geom CRS OID JSON, r = ⟨r.client⟩)
    ∧ (∀ (r : RESTful Geom CRS OID JSON) (geom : Geom) (geo_crs : CRS),
        (RESTful.bygeom json2geodf r geom geo_crs).2 =
          [ClientCall.oids_bygeom geom geo_crs,
           ClientCall.get_features (r.client.oids_bygeom geom geo_crs)]
        ∧ (RESTful.bygeom json2geodf r geom geo_crs).1 =
            json2geodf (r.client.get_features (r.client.oids_bygeom geom geo_crs))
              r.client.client.crs)
    ∧ (∀ (r : RESTful Geom CRS OID JSON) (sql_clause : String),
        (RESTful.bysql json2geodf r sql_clause).2 =
          [ClientCall.oids_bysql sql_clause,
           ClientCall.get_features (r.client.oids_bysql sql_clause)]
        ∧ (RESTful.bysql json2geodf r sql_clause).1 =
            json2geodf (r.client.get_features (r.client.oids_bysql sql_clause))
              r.client.client.crs) :=
  ⟨rfl, fun _ => rfl, fun _ _ _ => ⟨rfl, rfl⟩, fun _ _ => ⟨rfl, rfl⟩⟩

/-- C10: for every integer `n`, `get_item_plural` returns `"item"` if
and only if `n = 1`, and returns `"items"` if and only if `n ≠ 1` — so
`"items"` for `0`, negative numbers, and every other value. -/
theorem get_item_plural_spec (n : Int) :
    (get_item_plural n = "item" ↔ n = 1)
    ∧ (get_item_plural n = "items" ↔ n ≠ 1) := by
  have hne : ("items" : String) ≠ "item" := by decide
  have hne2 : ("item" : String) ≠ "items" := by decide
  unfold get_item_plural
  by_cases h : n = 1
  · simp [h, hne2]
  · simp [h, hne, hne2]

/-! ### Theorems for claim C4 (`deg2mpm`) -/

/-- Unfolding lemma: the cell values produced by `deg2mpm`. -/
theorem deg2mpm_values_eq {V : Type} [DecidableEq V] (tanDeg : V → V)
    (slope : DataArray V) :
    (deg2mpm tanDeg slope).values =
      (slope.values.map (maskCell (nodataOf slope.attrs))).map (Option.map tanDeg) := rfl

/-- Unfolding lemma: the attribute updates performed by `deg2mpm`. -/
theorem deg2mpm_attrs_eq {V : Type} [DecidableEq V] (tanDeg : V → V)
    (slope : DataArray V) :
    (deg2mpm tanDeg slope).attrs =
      setAttr
        (if (alookup "_FillValue"
              (setAttr slope.attrs "nodatavals" (AttrVal.tup [none]))).isSome then
          setAttr (setAttr slope.attrs "nodatavals" (AttrVal.tup [none]))
            "_FillValue" (AttrVal.num none)
        else setAttr slope.attrs "nodatavals" (AttrVal.tup [none]))
        "units" (AttrVal.str "m/m") := rfl

/-- C4 (amended): `deg2mpm` maps every non-NaN cell equal to the nodata
value to NaN and every other cell through `tan(deg2rad(.))` (NaN cells
stay NaN), keeps the shape, and returns an array named `slope` with
`units` attribute `m/m` and `nodatavals` attribute `(NaN,)`; every other
input attribute is kept, except `_FillValue`, which is reset to NaN when
present (and stays absent when absent). -/
theorem deg2mpm_spec {V : Type} [DecidableEq V] (tanDeg : V → V)
    (slope : DataArray V) :
    (∀ (i : Nat) (c : Option V), slope.values[i]? = some c →
      (deg2mpm tanDeg slope).values[i]? = some (
        match c, nodataOf slope.attrs with
        | none, _ => none
        | some v, some nd => if v = nd then none else some (tanDeg v)
        | some v, none => some (tanDeg v)))
    ∧ (deg2mpm tanDeg slope).name = "slope"
    ∧ alookup "units" (deg2mpm tanDeg slope).attrs = some (AttrVal.str "m/m")
    ∧ alookup "nodatavals" (deg2mpm tanDeg slope).attrs = some (AttrVal.tup [none])
    ∧ (∀ (k : String), k ≠ "units" → k ≠ "nodatavals" → k ≠ "_FillValue" →
        alookup k (deg2mpm tanDeg slope).attrs = alookup k slope.attrs)
    ∧ ((alookup "_FillValue" slope.attrs).isSome →
        alookup "_FillValue" (deg2mpm tanDeg slope).attrs = some (AttrVal.num none))
    ∧ ((alookup "_FillValue" slope.attrs).isNone →
        alookup "_FillValue" (deg2mpm tanDeg slope).attrs = none)
    ∧ (deg2mpm tanDeg slope).values.length = slope.values.length := by
  have hnv : alookup "_FillValue"
      (setAttr slope.attrs "nodatavals" (AttrVal.tup [none])) =
      alookup "_FillValue" slope.attrs :=
    alookup_setAttr_ne _ _ _ _ (by decide)
  refine ⟨?_, rfl, ?_, ?_, ?_, ?_, ?_, ?_⟩
  · intro i c h
    rw [deg2mpm_values_eq, List.getElem?_map, List.getElem?_map, h]
    rcases c with _ | v
    · rfl
    · rcases hnd : nodataOf slope.attrs with _ | nd
      · simp [maskCell, hnd]
      · by_cases hv : v = nd
        · simp [maskCell, hnd, hv]
        · simp [maskCell, hnd, hv]
  · rw [deg2mpm_attrs_eq]
    exact alookup_setAttr_self _ _ _
  · rw [deg2mpm_attrs_eq, alookup_setAttr_ne _ _ _ _ (by decide)]
    by_cases h : (alookup "_FillValue"
        (setAttr slope.attrs "nodatavals" (AttrVal.tup [none]))).isSome
    · rw [if_pos h, alookup_setAttr_ne _ _ _ _ (by decide), alookup_setAttr_self]
    · rw [if_neg h, alookup_setAttr_self]
  · intro k hu hn hf
    rw [deg2mpm_attrs_eq, alookup_setAttr_ne _ _ _ _ hu]
    by_cases h : (alookup "_FillValue"
        (setAttr slope.attrs "nodatavals" (AttrVal.tup [none]))).isSome
    · rw [if_pos h, alookup_setAttr_ne _ _ _ _ hf, alookup_setAttr_ne _ _ _ _ hn]
    · rw [if_neg h, alookup_setAttr_ne _ _ _ _ hn]
  · intro h
    rw [deg2mpm_attrs_eq, alookup_setAttr_ne _ _ _ _ (by decide)]
    rw [if_pos (by rw [hnv]; exact h)]
    exact alookup_setAttr_self _ _ _
  · intro h
    have h0 : alookup "_FillValue" slope.attrs = none :=
      Option.isNone_iff_eq_none.mp h
    rw [deg2mpm_attrs_eq, alookup_setAttr_ne _ _ _ _ (by decide)]
    rw [if_neg (by rw [hnv, h0]; simp)]
    rw [alookup_setAttr_ne _ _ _ _ (by decide), h0]
  · rw [deg2mpm_values_eq]
    simp

/-- C4 counterexample: on `exSlope`, whose `_FillValue` attribute is the
non-NaN value `5`, `deg2mpm` does not keep that attribute (it overwrites
it with NaN), refuting the claim that all input attributes other than
`units` and `nodatavals` are kept. -/
theorem deg2mpm_fillvalue_counterexample :
    (("_FillValue" : String) ≠ "units" ∧ ("_FillValue" : String) ≠ "nodatavals")
    ∧ alookup "_FillValue" exSlope.attrs = some (AttrVal.num (some 5))
    ∧ alookup "_FillValue" (deg2mpm (fun v => v + 1) exSlope).attrs =
        some (AttrVal.num none)
    ∧ alookup "_FillValue" (deg2mpm (fun v => v + 1) exSlope).attrs ≠
        alookup "_FillValue" exSlope.attrs := by decide

/-- Witness for C4: the amended theorem evaluated on the concrete raster
`exSlope` (nodata `5`): the cell equal to nodata becomes NaN, and the
present `_FillValue` attribute is reset to NaN. -/
theorem deg2mpm_spec_witness :
    exSlope.values[0]? = some (some 5)
    ∧ (deg2mpm (fun v : Int => v + 1) exSlope).values[0]? = some none
    ∧ (alookup "_FillValue" exSlope.attrs).isSome = true
    ∧ alookup "_FillValue" (deg2mpm (fun v : Int => v + 1) exSlope).attrs =
        some (AttrVal.num none) := by
  have h := deg2mpm_spec (fun v : Int => v + 1) exSlope
  exact ⟨rfl, (h.1 0 (some 5) rfl).trans (by decide), by decide,
    h.2.2.2.2.2.1 (by decide)⟩

/-! ### Theorems for claims C5 and C6 -/

/-- C5: `rename_layers` renames each layer name to the text after the
last `:` with spaces replaced by underscores and lowercased, except that
the layer `3DEPElevation:None` is renamed to `elevation`; the data
values are unchanged.  This holds for both the Dataset form and the
DataArray form, whenever every layer name is in the rename dictionary
(otherwise the Python code raises a `KeyError`). -/
theorem rename_layers_spec {V : Type} (ds : List (String × List (Option V)))
    (valid_layers : List String) (da : DataArray V)
    (hds : ∀ p ∈ ds, p.1 = "3DEPElevation:None" ∨ p.1 ∈ valid_layers)
    (hda : da.name = "3DEPElevation:None" ∨ da.name ∈ valid_layers) :
    rename_layers ds valid_layers =
      some (ds.map (fun p =>
        (if p.1 = "3DEPElevation:None" then "elevation"
         else pyLower (pyReplaceChar (pySplitLast ':' p.1) ' ' '_'), p.2)))
    ∧ rename_layers_da da valid_layers =
        some { da with name := (
          if da.name = "3DEPElevation:None" then "elevation"
          else pyLower (pyReplaceChar (pySplitLast ':' da.name) ' ' '_')) } := by
  have hro : ∀ n : String, (n = "3DEPElevation:None" ∨ n ∈ valid_layers) →
      renameOf valid_layers n =
        some (if n = "3DEPElevation:None" then "elevation" else layerSlug n) := by
    intro n hn
    unfold renameOf
    by_cases h : n = "3DEPElevation:None"
    · simp [h]
    · rcases hn with h1 | h2
      · exact absurd h1 h
      · simp [h, h2]
  constructor
  · have main : ∀ l : List (String × List (Option V)),
        (∀ p ∈ l, p.1 = "3DEPElevation:None" ∨ p.1 ∈ valid_layers) →
        rename_layers l valid_layers =
          some (l.map (fun p =>
            (if p.1 = "3DEPElevation:None" then "elevation"
             else pyLower (pyReplaceChar (pySplitLast ':' p.1) ' ' '_'), p.2))) := by
      intro l
      induction l with
      | nil => intro _; rfl
      | cons p rest ih =>
        intro hl
        have hp := hl p (List.mem_cons_self p rest)
        have hrest : ∀ q ∈ rest, q.1 = "3DEPElevation:None" ∨ q.1 ∈ valid_layers :=
          fun q hq => hl q (List.mem_cons_of_mem p hq)
        simp only [rename_layers, hro p.1 hp, ih hrest, List.map_cons]
        rfl
    exact main ds hds
  · unfold rename_layers_da
    rw [hro da.name hda]
    rfl

/-- Witness for C5: `rename_layers` on a concrete two-layer dataset and
a concrete array, with the special elevation layer and a spaced layer
name. -/
theorem rename_layers_spec_witness :
    rename_layers exDataset exValidLayers =
      some [("elevation", [some 10]), ("slope_degrees", [some 7])]
    ∧ rename_layers_da exDa exValidLayers = some { exDa with name := "elevation" } := by
  have h := rename_layers_spec exDataset exValidLayers exDa (by decide) (by decide)
  exact ⟨h.1.trans (by decide), h.2.trans (by decide)⟩

/-- C6: `fill_depressions` raises `DependencyError` exactly when the
external pyflwdir library cannot be imported; when it is available, the
result is the input DEM cast to float64 whose data is pyflwdir's
`fill_depressions` output on the cast DEM's values with the given
`outlets` option and NaN as nodata (and the array keeps its name). -/
theorem fill_depressions_spec {V : Type} (pyflwdirAvail : Bool)
    (extFill : List (Option V) → Outlets → Option V → List (Option V))
    (dem : DataArray V) (outlets : Outlets) :
    (fill_depressions pyflwdirAvail extFill dem outlets =
        Except.error Py3depError.dependencyError ↔ pyflwdirAvail = false)
    ∧ (pyflwdirAvail = true →
        (fill_depressions pyflwdirAvail extFill dem outlets).toOption.map
            (fun d => (d.values, d.dtype, d.name)) =
          some (extFill (dem.astype "f8").values outlets none, "f8", dem.name)) := by
  cases pyflwdirAvail
  · simp [fill_depressions]
  · simp [fill_depressions, DataArray.astype, Except.toOption]

/-- Witness for C6: `fill_depressions` on the concrete DEM `exDem` with
pyflwdir available does not raise and returns the externally filled
values with dtype `f8`. -/
theorem fill_depressions_spec_witness :
    fill_depressions true exExtFill exDem Outlets.min ≠
        Except.error Py3depError.dependencyError
    ∧ (fill_depressions true exExtFill exDem Outlets.min).toOption.map
        (fun d => (d.values, d.dtype, d.name)) =
      some ([some 4, some 2], "f8", "elevation") := by
  have h := fill_depressions_spec true exExtFill exDem Outlets.min
  exact ⟨fun hc => absurd (h.1.mp hc) (by decide), (h.2 rfl).trans (by decide)⟩

/-! ### Theorems for claims C8 and C9 -/

/-- Helper: `get_target_df` succeeds when every required column is
present, returning the restriction of the frame to `req_cols` in that
order. -/
theorem get_target_df_ok {V : Type} (tdf : DataFrame V) (req_cols : List String)
    (h : ∀ c ∈ req_cols, (alookup c tdf.cols).isSome) :
    get_target_df tdf req_cols =
      Except.ok ⟨req_cols.map (fun c => (c, (alookup c tdf.cols).getD ⟨"", []⟩))⟩ := by
  have hfil : req_cols.filter (fun c => (alookup c tdf.cols).isNone) = [] := by
    rw [List.filter_eq_nil_iff]
    intro c hc
    have h2 := h c hc
    intro hn
    rw [Option.isNone_iff_eq_none] at hn
    rw [hn] at h2
    simp at h2
  show (if (req_cols.filter (fun c => (alookup c tdf.cols).isNone)).length > 0 then _ else _) = _
  rw [hfil]
  simp

/-- Helper: `get_target_df` fails with exactly the missing columns when
at least one required column is absent. -/
theorem get_target_df_error {V : Type} (tdf : DataFrame V) (req_cols : List String)
    (h : req_cols.filter (fun c => (alookup c tdf.cols).isNone) ≠ []) :
    get_target_df tdf req_cols =
      Except.error (Py3depError.missingColumns
        (req_cols.filter (fun c => (alookup c tdf.cols).isNone))) := by
  show (if (req_cols.filter (fun c => (alookup c tdf.cols).isNone)).length > 0 then _ else _) = _
  rw [if_pos (by simpa [List.length_pos] using h)]

/-- C8: `get_target_df` raises `MissingColumns`, carrying exactly the
required columns absent from the frame, if and only if at least one
required column is missing; otherwise it returns the frame restricted to
the required columns, in the order of `req_cols`. -/
theorem get_target_df_spec {V : Type} (tdf : DataFrame V) (req_cols : List String) :
    (∀ ms : List String,
      get_target_df tdf req_cols = Except.error (Py3depError.missingColumns ms) ↔
        (ms = req_cols.filter (fun c => (alookup c tdf.cols).isNone) ∧ ms ≠ []))
    ∧ ((∀ c ∈ req_cols, (alookup c tdf.cols).isSome) →
        get_target_df tdf req_cols =
          Except.ok ⟨req_cols.map (fun c => (c, (alookup c tdf.cols).getD ⟨"", []⟩))⟩) := by
  constructor
  · intro ms
    constructor
    · intro he
      by_cases h : req_cols.filter (fun c => (alookup c tdf.cols).isNone) = []
      · have hall : ∀ c ∈ req_cols, (alookup c tdf.cols).isSome := by
          intro c hc
          by_contra hno
          have hmem : c ∈ req_cols.filter (fun c => (alookup c tdf.cols).isNone) := by
            rw [List.mem_filter]
            exact ⟨hc, by simpa [Option.isNone_iff_eq_none, Option.not_isSome_iff_eq_none] using hno⟩
          rw [h] at hmem
          exact absurd hmem (List.not_mem_nil c)
        rw [get_target_df_ok tdf req_cols hall] at he
        exact absurd he (by simp)
      · rw [get_target_df_error tdf req_cols h] at he
        simp only [Except.error.injEq, Py3depError.missingColumns.injEq] at he
        exact ⟨he.symm, he ▸ h⟩
    · rintro ⟨h1, h2⟩
      subst h1
      exact get_target_df_error tdf req_cols h2
  · exact get_target_df_ok tdf req_cols

/-- Witness for C8: the happy path on the concrete coordinate table
(both required columns present, restriction in order). -/
theorem get_target_df_spec_witness :
    get_target_df exCoordsDf ["x", "y"] =
      Except.ok ⟨[("x", ⟨"i8", [1, 2]⟩), ("y", ⟨"i8", [3, 4]⟩)]⟩ := by
  have h := get_target_df_spec exCoordsDf ["x", "y"]
  exact (h.2 (by decide)).trans rfl

/-- C9: the `geometry` command raises `MissingCRS` whenever the input
file carries no CRS; the save directory is created first, and no other
filesystem effect (in particular no per-feature output file) happens. -/
theorem geometry_missing_crs_spec {V ND : Type}
    (read_file : String → GeoDataFrame V)
    (get_map : String → V → V → String → String → ND)
    (DEF_CRS : String) (pyStrOf : V → String)
    (fpath layer save_dir : String)
    (h : (read_file fpath).crs = none) :
    geometry read_file get_map DEF_CRS pyStrOf fpath layer save_dir =
      ([FsEffect.mkdir save_dir], Except.error Py3depError.missingCRS) := by
  simp only [geometry, h]

/-- Witness for C9: the `geometry` command on a concrete CRS-less input
creates only the save directory and raises `MissingCRS`. -/
theorem geometry_missing_crs_spec_witness :
    geometry exReadFileNoCrs exGetMap "EPSG:4326" exPyStr "geo.gpkg" "DEM" "topo_3dep" =
      ([FsEffect.mkdir "topo_3dep"], Except.error Py3depError.missingCRS) :=
  geometry_missing_crs_spec exReadFileNoCrs exGetMap "EPSG:4326" exPyStr
    "geo.gpkg" "DEM" "topo_3dep" rfl

/-! ### Theorems for claim C7 (CLI output files) -/

/-- Helper: assigning a column absent from the frame appends it. -/
theorem setCol_of_none {V : Type} (df : DataFrame V) (c : String) (vals : List V)
    (h : alookup c df.cols = none) :
    df.setCol c vals = ⟨df.cols ++ [(c, ⟨"inferred", vals⟩)]⟩ := by
  unfold DataFrame.setCol
  rw [h]
  simp

/-- Helper: `astype` keeps the column names. -/
theorem astype_colNames {V : Type} (df : DataFrame V) (dt : String) :
    (df.astype dt).colNames = df.colNames := by
  simp [DataFrame.astype, DataFrame.colNames]

/-- Helper: after `astype dt` every column carries dtype `dt`. -/
theorem astype_dtypes {V : Type} (df : DataFrame V) (dt : String) :
    ∀ p ∈ (df.astype dt).cols, p.2.dtype = dt := by
  intro p hp
  simp only [DataFrame.astype, List.mem_map] at hp
  obtain ⟨q, _, rfl⟩ := hp
  rfl

/-- C7: the CLI writes results to disk as CSV for coordinate inputs and
NetCDF for geometry inputs.  The `coords` command performs exactly one
`mkdir` and one CSV write, to `save_dir/(stem of fpath)_elevation.csv`,
and the written table has the columns `x`, `y`, `elevation`, all of
dtype float64.  The `geometry` command performs a `mkdir` followed by
one NetCDF write per input feature row `(id, res, geom)`, to
`save_dir/{id}.nc`, containing `get_map` applied to that feature; in
particular (last conjunct) when the three columns have equal lengths the
written paths are exactly one `{id}.nc` per feature identifier. -/
theorem cli_outputs_spec {V ND : Type}
    (read_csv : String → DataFrame V)
    (elevation_bycoords : List (List V) → String → String → List V)
    (read_file : String → GeoDataFrame V)
    (get_map : String → V → V → String → String → ND)
    (DEF_CRS : String) (pyStrOf : V → String)
    (fpath crs query_source save_dir fpath2 layer save_dir2 crs2 : String)
    (hx : (alookup "x" (read_csv fpath).cols).isSome)
    (hy : (alookup "y" (read_csv fpath).cols).isSome)
    (hcrs : (read_file fpath2).crs = some crs2)
    (hid : (alookup "id" (read_file fpath2).df.cols).isSome)
    (hres : (alookup "res" (read_file fpath2).df.cols).isSome)
    (hgeo : (alookup "geometry" (read_file fpath2).df.cols).isSome) :
    ((@coords V ND read_csv elevation_bycoords fpath crs query_source save_dir).1.map effPath =
        [save_dir, pathJoin save_dir (pathStem fpath ++ "_elevation.csv")])
    ∧ (@coords V ND read_csv elevation_bycoords fpath crs query_source save_dir).2 =
        Except.ok ()
    ∧ (∀ (out : DataFrame V) (p : String),
        (@coords V ND read_csv elevation_bycoords fpath crs query_source save_dir).1[1]? =
          some (FsEffect.writeCsv p out) →
        out.colNames = ["x", "y", "elevation"] ∧ ∀ q ∈ out.cols, q.2.dtype = "f8")
    ∧ geometry read_file get_map DEF_CRS pyStrOf fpath2 layer save_dir2 =
        (FsEffect.mkdir save_dir2 ::
          (((alookup "id" (read_file fpath2).df.cols).getD ⟨"", []⟩).values.zip
            ((((alookup "res" (read_file fpath2).df.cols).getD ⟨"", []⟩).values).zip
              (((alookup "geometry" (read_file fpath2).df.cols).getD ⟨"", []⟩).values))).map
            (fun t => FsEffect.writeNetcdf (pathJoin save_dir2 (pyStrOf t.1 ++ ".nc"))
              (get_map layer t.2.2 t.2.1 crs2 DEF_CRS)),
         Except.ok ())
    ∧ (((alookup "res" (read_file fpath2).df.cols).getD ⟨"", []⟩).values.length =
          ((alookup "id" (read_file fpath2).df.cols).getD ⟨"", []⟩).values.length →
        ((alookup "geometry" (read_file fpath2).df.cols).getD ⟨"", []⟩).values.length =
          ((alookup "id" (read_file fpath2).df.cols).getD ⟨"", []⟩).values.length →
        (geometry read_file get_map DEF_CRS pyStrOf fpath2 layer save_dir2).1.map effPath =
          save_dir2 :: ((alookup "id" (read_file fpath2).df.cols).getD ⟨"", []⟩).values.map
            (fun i => pathJoin save_dir2 (pyStrOf i ++ ".nc"))) := by
  have hxy : ∀ c ∈ ["x", "y"], (alookup c (read_csv fpath).cols).isSome := by
    intro c hc
    simp only [List.mem_cons, List.not_mem_nil, or_false] at hc
    rcases hc with rfl | rfl
    · exact hx
    · exact hy
  have hirg : ∀ c ∈ ["id", "res", "geometry"],
      (alookup c (read_file fpath2).df.cols).isSome := by
    intro c hc
    simp only [List.mem_cons, List.not_mem_nil, or_false] at hc
    rcases hc with rfl | rfl | rfl
    · exact hid
    · exact hres
    · exact hgeo
  have hok := get_target_df_ok (read_csv fpath) ["x", "y"] hxy
  have hok2 := get_target_df_ok (read_file fpath2).df ["id", "res", "geometry"] hirg
  have hcoords : @coords V ND read_csv elevation_bycoords fpath crs query_source save_dir =
      ([FsEffect.mkdir save_dir,
        FsEffect.writeCsv (pathJoin save_dir (pathStem fpath ++ "_elevation.csv"))
          (DataFrame.astype
            (DataFrame.setCol
              ⟨[("x", (alookup "x" (read_csv fpath).cols).getD ⟨"", []⟩),
                ("y", (alookup "y" (read_csv fpath).cols).getD ⟨"", []⟩)]⟩
              "elevation"
              (elevation_bycoords
                (DataFrame.itertuples
                  ⟨[("x", (alookup "x" (read_csv fpath).cols).getD ⟨"", []⟩),
                    ("y", (alookup "y" (read_csv fpath).cols).getD ⟨"", []⟩)]⟩)
                crs query_source))
            "f8")],
       Except.ok ()) := by
    simp only [coords, hok]
    rfl
  have hgeom : geometry read_file get_map DEF_CRS pyStrOf fpath2 layer save_dir2 =
      (FsEffect.mkdir save_dir2 ::
        (((alookup "id" (read_file fpath2).df.cols).getD ⟨"", []⟩).values.zip
          ((((alookup "res" (read_file fpath2).df.cols).getD ⟨"", []⟩).values).zip
            (((alookup "geometry" (read_file fpath2).df.cols).getD ⟨"", []⟩).values))).map
          (fun t => FsEffect.writeNetcdf (pathJoin save_dir2 (pyStrOf t.1 ++ ".nc"))
            (get_map layer t.2.2 t.2.1 crs2 DEF_CRS)),
       Except.ok ()) := by
    simp only [geometry, hcrs, hok2]
    rfl
  refine ⟨?_, ?_, ?_, hgeom, ?_⟩
  · rw [hcoords]
    rfl
  · rw [hcoords]
  · intro out p h
    rw [hcoords] at h
    simp only [List.getElem?_cons_succ, List.getElem?_cons_zero, Option.some.injEq,
      FsEffect.writeCsv.injEq] at h
    obtain ⟨-, ho⟩ := h
    rw [← ho]
    constructor
    · have e1 : ¬("x" : String) = "elevation" := by decide
      have e2 : ¬("y" : String) = "elevation" := by decide
      have hne : alookup "elevation"
          (⟨[("x", (alookup "x" (read_csv fpath).cols).getD ⟨"", []⟩),
             ("y", (alookup "y" (read_csv fpath).cols).getD ⟨"", []⟩)]⟩ :
            DataFrame V).cols = none := by
        simp [alookup, e1, e2]
      rw [setCol_of_none _ _ _ hne, astype_colNames]
      simp [DataFrame.colNames]
    · exact astype_dtypes _ "f8"
  · intro h1 h2
    rw [hgeom]
    simp only [List.map_cons, List.map_map]
    have hcomp : @effPath V ND ∘
        (fun t : V × V × V => FsEffect.writeNetcdf (pathJoin save_dir2 (pyStrOf t.1 ++ ".nc"))
          (get_map layer t.2.2 t.2.1 crs2 DEF_CRS)) =
        fun t : V × V × V => pathJoin save_dir2 (pyStrOf t.1 ++ ".nc") := rfl
    rw [hcomp]
    have hzlen : ((((alookup "res" (read_file fpath2).df.cols).getD ⟨"", []⟩).values).zip
        (((alookup "geometry" (read_file fpath2).df.cols).getD ⟨"", []⟩).values)).length =
        ((alookup "id" (read_file fpath2).df.cols).getD ⟨"", []⟩).values.length := by
      rw [List.length_zip, h1, h2]
      exact Nat.min_self _
    have hfst := List.map_fst_zip
      ((alookup "id" (read_file fpath2).df.cols).getD ⟨"", []⟩).values
      ((((alookup "res" (read_file fpath2).df.cols).getD ⟨"", []⟩).values).zip
        (((alookup "geometry" (read_file fpath2).df.cols).getD ⟨"", []⟩).values))
      (le_of_eq hzlen.symm)
    have hmm : (((alookup "id" (read_file fpath2).df.cols).getD ⟨"", []⟩).values.zip
        ((((alookup "res" (read_file fpath2).df.cols).getD ⟨"", []⟩).values).zip
          (((alookup "geometry" (read_file fpath2).df.cols).getD ⟨"", []⟩).values))).map
        (fun t => pathJoin save_dir2 (pyStrOf t.1 ++ ".nc")) =
        ((((alookup "id" (read_file fpath2).df.cols).getD ⟨"", []⟩).values.zip
          ((((alookup "res" (read_file fpath2).df.cols).getD ⟨"", []⟩).values).zip
            (((alookup "geometry" (read_file fpath2).df.cols).getD ⟨"", []⟩).values))).map
          Prod.fst).map (fun i => pathJoin save_dir2 (pyStrOf i ++ ".nc")) := by
      rw [List.map_map]
      rfl
    rw [hmm, hfst]
    rfl

/-- Witness for C7: the two CLI commands on concrete inputs write
exactly the expected files (one CSV named after the input stem for
`coords`, one NetCDF named after the feature identifier for
`geometry`). -/
theorem cli_outputs_spec_witness :
    (@coords Int Int exReadCsv exElevBycoords "pts.csv" "epsg:4326" "tnm" "topo_3dep").1.map
        effPath = ["topo_3dep", "topo_3dep/pts_elevation.csv"]
    ∧ (geometry exReadFile exGetMap "EPSG:4326" exPyStr "geo.gpkg" "DEM" "topo_3dep").1.map
        effPath = ["topo_3dep", "topo_3dep/11.nc"] := by
  have h := cli_outputs_spec exReadCsv exElevBycoords exReadFile exGetMap "EPSG:4326" exPyStr
    "pts.csv" "epsg:4326" "tnm" "topo_3dep" "geo.gpkg" "DEM" "topo_3dep" "EPSG:5070"
    (by decide) (by decide) rfl (by decide) (by decide) (by decide)
  exact ⟨h.1.trans (by decide), (h.2.2.2.2 (by decide) (by decide)).trans (by decide)⟩

end Py3dep
